import Mathlib

/-!
Verification of the Frank Energie refresh coordinator
(`custom_components/frank_energie/coordinator.py`).

The coordinator is embedded shallowly: each network call of the external
GraphQL client is a field of an `Api` record returning `Except FetchError v`,
and the coordinator methods become pure functions that also emit the ordered
trace of client calls they perform.  Exception propagation of the Python code
is modelled by `Except`, with one constructor per exception class that the
code can raise or catch.
-/

namespace FrankEnergie

/-- Modelled from the spec (external collaborator, python_frank_energie):
one (timestamp, price) entry of a price series. Timestamps are integers. -/
structure PriceEntry where
  fromTime : Int
  price : Int
deriving DecidableEq, Repr

/-- Modelled from the spec (external collaborator): an ordered price series
for one commodity; the library exposes the entries as `.all`. -/
structure PriceData where
  all : List PriceEntry
deriving DecidableEq, Repr

/-- Modelled from the spec: the library supports concatenation of two price
series (Python `+`). -/
instance : Add PriceData where
  add a b := ⟨a.all ++ b.all⟩

/-- Modelled from the spec (external collaborator): filtering a price series
to its future entries, relative to the current time `now`. -/
def PriceData.get_future_prices (p : PriceData) (now : Int) : List PriceEntry :=
  p.all.filter (fun e => now < e.fromTime)

/-- Modelled from the spec (external collaborator): an electricity series
paired with a gas series for one date window. -/
structure MarketPrices where
  electricity : PriceData
  gas : PriceData
deriving DecidableEq, Repr

/-- Modelled from the spec (external collaborator): opaque monthly summary
payload; its content is irrelevant to the coordinator. -/
structure MonthSummary where
  val : Int
deriving DecidableEq, Repr

/-- Modelled from the spec (external collaborator): opaque invoices payload;
its content is irrelevant to the coordinator. -/
structure Invoices where
  val : Int
deriving DecidableEq, Repr

/-- Modelled from the spec (external collaborator): the token pair returned
by a successful renewal. -/
structure AuthTokens where
  authToken : String
  refreshToken : String
deriving DecidableEq, Repr

/-- The exception classes that may propagate out of an awaited client call
inside the try block of `_async_update_data`: the request exception and the
auth exception of the client, and the host `UpdateFailed` class (representable
so that the first except clause of the source is modelled; per the spec the
client itself only raises the first two). Each carries `str(ex)`. -/
inductive FetchError where
  | requestException (msg : String)
  | authException (msg : String)
  | updateFailed (msg : String)
deriving DecidableEq, Repr

/-- The snapshot type `FrankEnergieData` of the coordinator (a TypedDict in
the source, keyed by the four `DATA_*` constants). -/
structure FrankEnergieData where
  electricity : PriceData
  gas : PriceData
  month_summary : Option MonthSummary
  invoices : Option Invoices
deriving DecidableEq, Repr

/-- Config-entry data persisted by the host: the two token keys written by
`__try_renew_token`, plus the site reference read at construction time.
`async_update_entry` replaces the whole mapping with the two token keys. -/
structure EntryData where
  access_token : Option String
  token : Option String
  site_reference : Option String
deriving DecidableEq, Repr

/-- One network call of the client, recorded in order of execution. -/
inductive ApiCall where
  | pricesCall (start_date end_date : Int)
  | userPricesCall (start_date : Int)
  | monthSummaryCall
  | invoicesCall
  | renewTokenCall
deriving DecidableEq, Repr

/-- The external GraphQL client, as seen by the coordinator: every call is
deterministic in its arguments and either returns a value or raises a
`FetchError`. Dates are integer day numbers; the site reference is fixed per
coordinator, so it is folded into the functions. -/
structure Api where
  is_authenticated : Bool
  prices : Int → Int → Except FetchError MarketPrices
  user_prices : Int → Except FetchError MarketPrices
  month_summary : Except FetchError MonthSummary
  invoices : Except FetchError Invoices
  renew_token : Except FetchError AuthTokens

/-- Result of a sequence of awaited client calls: the value or the first
exception, together with the trace of calls actually performed. -/
def TraceM (α : Type) : Type := Except FetchError α × List ApiCall

/-- Sequencing of awaited calls: once a call raises, later calls do not run. -/
def tbind {α β : Type} (x : TraceM α) (f : α → TraceM β) : TraceM β :=
  match x with
  | (Except.error e, t) => (Except.error e, t)
  | (Except.ok a, t) =>
    match f a with
    | (r, t2) => (r, t ++ t2)

/-- Embedding of `FrankEnergieCoordinator.__fetch_prices_with_fallback`
(coordinator.py lines 101-122). -/
def fetch_prices_with_fallback (api : Api) (start_date end_date : Int) :
    TraceM MarketPrices :=
  if api.is_authenticated = false then
    (api.prices start_date end_date, [ApiCall.pricesCall start_date end_date])
  else
    match api.user_prices start_date with
    | Except.error e => (Except.error e, [ApiCall.userPricesCall start_date])
    | Except.ok user_prices =>
      if 0 < user_prices.gas.all.length ∧ 0 < user_prices.electricity.all.length then
        (Except.ok user_prices, [ApiCall.userPricesCall start_date])
      else
        match api.prices start_date end_date with
        | Except.error e =>
          (Except.error e,
            [ApiCall.userPricesCall start_date, ApiCall.pricesCall start_date end_date])
        | Except.ok public_prices =>
          let up1 := if user_prices.gas.all.length = 0 then
              { user_prices with gas := public_prices.gas } else user_prices
          let up2 := if up1.electricity.all.length = 0 then
              { up1 with electricity := public_prices.electricity } else up1
          (Except.ok up2,
            [ApiCall.userPricesCall start_date, ApiCall.pricesCall start_date end_date])

/-- Embedding of the conditional month-summary fetch
(coordinator.py lines 66-68). -/
def fetch_month_summary (api : Api) : TraceM (Option MonthSummary) :=
  if api.is_authenticated then
    match api.month_summary with
    | Except.ok m => (Except.ok (some m), [ApiCall.monthSummaryCall])
    | Except.error e => (Except.error e, [ApiCall.monthSummaryCall])
  else
    (Except.ok none, [])

/-- Embedding of the conditional invoices fetch (coordinator.py lines 69-71). -/
def fetch_invoices (api : Api) : TraceM (Option Invoices) :=
  if api.is_authenticated then
    match api.invoices with
    | Except.ok i => (Except.ok (some i), [ApiCall.invoicesCall])
    | Except.error e => (Except.error e, [ApiCall.invoicesCall])
  else
    (Except.ok none, [])

/-- Embedding of the try block of `_async_update_data` together with the
snapshot construction (coordinator.py lines 56-71 and 94-99): fetch prices
for the windows [today, tomorrow) and [tomorrow, day after tomorrow), then
month summary and invoices when authenticated, and build the new snapshot. -/
def runTryBlock (api : Api) (today : Int) : TraceM FrankEnergieData :=
  tbind (fetch_prices_with_fallback api today (today + 1)) (fun prices_today =>
    tbind (fetch_prices_with_fallback api (today + 1) (today + 2)) (fun prices_tomorrow =>
      tbind (fetch_month_summary api) (fun data_month_summary =>
        tbind (fetch_invoices api) (fun data_invoices =>
          (Except.ok
            { electricity := prices_today.electricity + prices_tomorrow.electricity
              gas := prices_today.gas + prices_tomorrow.gas
              month_summary := data_month_summary
              invoices := data_invoices },
            [])))))

/-- Python `str.startswith`, used at coordinator.py line 83: the pattern is
a prefix of the character sequence of the string. -/
def startswith (s pattern : String) : Bool := pattern.data.isPrefixOf s.data

/-- Result of one refresh cycle: the returned snapshot, or one of the
exception classes that can propagate out of `_async_update_data`. -/
inductive CycleOutcome where
  | ok (d : FrankEnergieData)
  | updateFailed (msg : String)
  | configEntryAuthFailed
  | uncaught (e : FetchError)
deriving DecidableEq, Repr

/-- Embedding of `FrankEnergieCoordinator.__try_renew_token`
(coordinator.py lines 124-139): on success the entry data mapping is replaced
by the two new tokens; an auth exception becomes `ConfigEntryAuthFailed`; any
other exception propagates raw. -/
def try_renew_token (api : Api) :
    Except (Option FetchError) EntryData :=
  match api.renew_token with
  | Except.ok updated_tokens =>
    Except.ok
      { access_token := some updated_tokens.authToken
        token := some updated_tokens.refreshToken
        site_reference := none }
  | Except.error (FetchError.authException _) => Except.error none
  | Except.error e => Except.error (some e)

/-- Embedding of `FrankEnergieCoordinator._async_update_data`
(coordinator.py lines 50-99). `prev` is the cached snapshot `self.data`,
`now` the current time used by `get_future_prices`, `entry` the persisted
config-entry data. Returns the cycle outcome, the entry data after the
cycle, and the ordered trace of client calls. The `UpdateFailed` raised at
line 86 and the `ConfigEntryAuthFailed` raised at line 84 occur inside
except clauses, so they are not re-dispatched to the earlier handlers. -/
def async_update_data (api : Api) (today : Int) (prev : FrankEnergieData)
    (now : Int) (entry : EntryData) :
    CycleOutcome × EntryData × List ApiCall :=
  match runTryBlock api today with
  | (Except.ok d, t) => (CycleOutcome.ok d, entry, t)
  | (Except.error (FetchError.updateFailed msg), t) =>
    if (prev.electricity.get_future_prices now ≠ [])
        ∧ (prev.gas.get_future_prices now ≠ []) then
      (CycleOutcome.ok prev, entry, t)
    else
      (CycleOutcome.updateFailed msg, entry, t)
  | (Except.error (FetchError.requestException msg), t) =>
    if startswith msg "user-error:" then
      (CycleOutcome.configEntryAuthFailed, entry, t)
    else
      (CycleOutcome.updateFailed msg, entry, t)
  | (Except.error (FetchError.authException msg), t) =>
    match try_renew_token api with
    | Except.ok entry2 =>
      (CycleOutcome.updateFailed msg, entry2, t ++ [ApiCall.renewTokenCall])
    | Except.error none =>
      (CycleOutcome.configEntryAuthFailed, entry, t ++ [ApiCall.renewTokenCall])
    | Except.error (some e) =>
      (CycleOutcome.uncaught e, entry, t ++ [ApiCall.renewTokenCall])

/-- Spec section 6 states that the client raises only the generic request
exception or the auth exception on failure; in particular it never raises
the host `UpdateFailed` class. -/
def Api.clientErrors (api : Api) : Prop :=
  (∀ s e msg, api.prices s e ≠ Except.error (FetchError.updateFailed msg)) ∧
  (∀ s msg, api.user_prices s ≠ Except.error (FetchError.updateFailed msg)) ∧
  (∀ msg, api.month_summary ≠ Except.error (FetchError.updateFailed msg)) ∧
  (∀ msg, api.invoices ≠ Except.error (FetchError.updateFailed msg))

/-- Sample config-entry data. -/
def entrySample : EntryData :=
  { access_token := some "acc", token := some "ref", site_reference := some "site" }

/-- Cached snapshot with a future-dated price for both commodities
(relative to now = 0). -/
def prevGood : FrankEnergieData :=
  { electricity := ⟨[⟨10, 5⟩]⟩, gas := ⟨[⟨12, 7⟩]⟩
    month_summary := none, invoices := none }

/-- Cached snapshot whose electricity series has no future-dated price
(relative to now = 0). -/
def prevStale : FrankEnergieData :=
  { electricity := ⟨[⟨-5, 3⟩]⟩, gas := ⟨[⟨12, 7⟩]⟩
    month_summary := none, invoices := none }

/-- Sample user prices for the window starting at day s. -/
def mpWin (s : Int) : MarketPrices := ⟨⟨[⟨24 * s, 11⟩]⟩, ⟨[⟨24 * s, 21⟩]⟩⟩

/-- Sample public prices for the window starting at day s. -/
def mpPub (s : Int) : MarketPrices := ⟨⟨[⟨24 * s, 31⟩]⟩, ⟨[⟨24 * s, 41⟩]⟩⟩

/-- Authenticated client whose calls all succeed. -/
def apiOkAuth : Api :=
  { is_authenticated := true
    prices := fun s _ => Except.ok (mpPub s)
    user_prices := fun s => Except.ok (mpWin s)
    month_summary := Except.ok ⟨100⟩
    invoices := Except.ok ⟨200⟩
    renew_token := Except.ok ⟨"newacc", "newref"⟩ }

/-- Unauthenticated client whose calls all succeed. -/
def apiOkPublic : Api := { apiOkAuth with is_authenticated := false }

/-- Unauthenticated client whose price fetch raises a generic request
exception (network error). -/
def apiReqFail : Api :=
  { apiOkPublic with
    prices := fun _ _ => Except.error (FetchError.requestException "connection error") }

/-- Authenticated client whose user-price fetch raises a request exception
tagged as a user error. -/
def apiUserErr : Api :=
  { apiOkAuth with
    user_prices := fun _ => Except.error (FetchError.requestException "user-error: auth-error") }

/-- Authenticated client whose user-price fetch raises an auth exception;
token renewal succeeds. -/
def apiAuthExpired : Api :=
  { apiOkAuth with
    user_prices := fun _ => Except.error (FetchError.authException "token expired") }

/-- Same as `apiAuthExpired`, but token renewal fails with an auth
exception. -/
def apiAuthExpiredRenewFail : Api :=
  { apiAuthExpired with renew_token := Except.error (FetchError.authException "renew failed") }

/-- User prices with an empty electricity series and a non-empty gas
series. -/
def upEmptyElec : MarketPrices := ⟨⟨[]⟩, (mpWin 0).gas⟩

/-- Authenticated client returning an empty user electricity series and a
non-empty user gas series. -/
def apiEmptyElec : Api :=
  { apiOkAuth with user_prices := fun s => Except.ok ⟨⟨[]⟩, (mpWin s).gas⟩ }

/-- The snapshot produced by a fully successful cycle of `apiOkAuth` on
day 0. -/
def dNewSample : FrankEnergieData :=
  { electricity := (mpWin 0).electricity + (mpWin 1).electricity
    gas := (mpWin 0).gas + (mpWin 1).gas
    month_summary := some ⟨100⟩
    invoices := some ⟨200⟩ }

/-! Helper lemmas about traces of the embedded coordinator. -/

/-- Every call of a sequenced computation comes from its first part or, when
the first part succeeded, from the continuation. -/
lemma tbind_trace_mem {α β : Type} (x : TraceM α) (f : α → TraceM β) (c : ApiCall)
    (h : c ∈ (tbind x f).2) : c ∈ x.2 ∨ ∃ a, x.1 = Except.ok a ∧ c ∈ (f a).2 := by
  rcases x with ⟨r, t⟩
  cases r with
  | error e => simp [tbind] at h; simp [h]
  | ok a =>
    rcases hf : f a with ⟨r2, t2⟩
    simp [tbind, hf] at h
    rcases h with h | h
    · exact Or.inl (by simpa using h)
    · exact Or.inr ⟨a, rfl, by simp [hf, h]⟩

/-- The fallback procedure for window [s, e) only calls the user-price and
public-price operations, always with that window. -/
lemma fallback_trace_mem (api : Api) (s e : Int) (c : ApiCall)
    (h : c ∈ (fetch_prices_with_fallback api s e).2) :
    c = ApiCall.userPricesCall s ∨ c = ApiCall.pricesCall s e := by
  cases ha : api.is_authenticated with
  | false => simp [fetch_prices_with_fallback, ha] at h; simp [h]
  | true =>
    cases hu : api.user_prices s with
    | error er => simp [fetch_prices_with_fallback, ha, hu] at h; simp [h]
    | ok up =>
      by_cases hb : 0 < up.gas.all.length ∧ 0 < up.electricity.all.length
      · simp [fetch_prices_with_fallback, ha, hu, hb] at h; simp [h]
      · cases hp : api.prices s e with
        | error er =>
          simp [fetch_prices_with_fallback, ha, hu, hb, hp] at h
          rcases h with h | h <;> simp [h]
        | ok pp =>
          simp [fetch_prices_with_fallback, ha, hu, hb, hp] at h
          rcases h with h | h <;> simp [h]

/-- The fallback procedure always performs at least one call. -/
lemma fallback_trace_nonempty (api : Api) (s e : Int) :
    (fetch_prices_with_fallback api s e).2 ≠ [] := by
  cases ha : api.is_authenticated with
  | false => simp [fetch_prices_with_fallback, ha]
  | true =>
    cases hu : api.user_prices s with
    | error er => simp [fetch_prices_with_fallback, ha, hu]
    | ok up =>
      by_cases hb : 0 < up.gas.all.length ∧ 0 < up.electricity.all.length
      · simp [fetch_prices_with_fallback, ha, hu, hb]
      · cases hp : api.prices s e with
        | error er => simp [fetch_prices_with_fallback, ha, hu, hb, hp]
        | ok pp => simp [fetch_prices_with_fallback, ha, hu, hb, hp]

/-- The month-summary step calls at most the month-summary operation. -/
lemma month_trace_mem (api : Api) (c : ApiCall)
    (h : c ∈ (fetch_month_summary api).2) : c = ApiCall.monthSummaryCall := by
  cases ha : api.is_authenticated with
  | false => simp [fetch_month_summary, ha] at h
  | true =>
    cases hm : api.month_summary with
    | error er => simp [fetch_month_summary, ha, hm] at h; simp [h]
    | ok m => simp [fetch_month_summary, ha, hm] at h; simp [h]

/-- The invoices step calls at most the invoices operation. -/
lemma invoices_trace_mem (api : Api) (c : ApiCall)
    (h : c ∈ (fetch_invoices api).2) : c = ApiCall.invoicesCall := by
  cases ha : api.is_authenticated with
  | false => simp [fetch_invoices, ha] at h
  | true =>
    cases hm : api.invoices with
    | error er => simp [fetch_invoices, ha, hm] at h; simp [h]
    | ok m => simp [fetch_invoices, ha, hm] at h; simp [h]

/-- Every call of the try block is a price call for one of the two windows,
a month-summary call, or an invoices call. -/
lemma runTryBlock_trace_mem (api : Api) (today : Int) (c : ApiCall)
    (h : c ∈ (runTryBlock api today).2) :
    c = ApiCall.userPricesCall today ∨ c = ApiCall.pricesCall today (today + 1)
    ∨ c = ApiCall.userPricesCall (today + 1) ∨ c = ApiCall.pricesCall (today + 1) (today + 2)
    ∨ c = ApiCall.monthSummaryCall ∨ c = ApiCall.invoicesCall := by
  unfold runTryBlock at h
  rcases tbind_trace_mem _ _ _ h with h1 | ⟨p1, _, h1⟩
  · rcases fallback_trace_mem _ _ _ _ h1 with h' | h' <;> simp [h']
  · rcases tbind_trace_mem _ _ _ h1 with h2 | ⟨p2, _, h2⟩
    · rcases fallback_trace_mem _ _ _ _ h2 with h' | h' <;> simp [h']
    · rcases tbind_trace_mem _ _ _ h2 with h3 | ⟨m, _, h3⟩
      · simp [month_trace_mem _ _ h3]
      · rcases tbind_trace_mem _ _ _ h3 with h4 | ⟨i, _, h4⟩
        · simp [invoices_trace_mem _ _ h4]
        · simp at h4

/-- The try block never calls token renewal. -/
lemma runTryBlock_no_renew (api : Api) (today : Int) :
    ApiCall.renewTokenCall ∉ (runTryBlock api today).2 := by
  intro h
  rcases runTryBlock_trace_mem api today _ h with h | h | h | h | h | h <;> simp at h

/-- When unauthenticated, the fallback procedure is a single public-price
call (coordinator.py lines 102-103). -/
lemma fpwf_unauth (api : Api) (s e : Int) (ha : api.is_authenticated = false) :
    fetch_prices_with_fallback api s e = (api.prices s e, [ApiCall.pricesCall s e]) := by
  simp [fetch_prices_with_fallback, ha]

/-- When unauthenticated, the month summary is absent and nothing is
called. -/
lemma fms_unauth (api : Api) (ha : api.is_authenticated = false) :
    fetch_month_summary api = (Except.ok none, []) := by
  simp [fetch_month_summary, ha]

/-- When unauthenticated, the invoices are absent and nothing is called. -/
lemma fi_unauth (api : Api) (ha : api.is_authenticated = false) :
    fetch_invoices api = (Except.ok none, []) := by
  simp [fetch_invoices, ha]

/-- When the try block raises a request or auth exception, the cycle never
returns a snapshot, and its trace is the try-block trace, possibly followed
by the one renewal call. -/
lemma error_cycle_not_ok (api : Api) (today : Int) (prev : FrankEnergieData)
    (now : Int) (entry : EntryData) (e : FetchError) (t : List ApiCall)
    (hrun : runTryBlock api today = (Except.error e, t))
    (hne : ∀ msg, e ≠ FetchError.updateFailed msg) :
    (∀ d, (async_update_data api today prev now entry).1 ≠ CycleOutcome.ok d)
    ∧ ((async_update_data api today prev now entry).2.2 = t
       ∨ (async_update_data api today prev now entry).2.2
          = t ++ [ApiCall.renewTokenCall]) := by
  cases e with
  | updateFailed msg => exact absurd rfl (hne msg)
  | requestException msg =>
    cases hsw : startswith msg "user-error:" with
    | false =>
      exact ⟨fun d => by simp [async_update_data, hrun, hsw],
        Or.inl (by simp [async_update_data, hrun, hsw])⟩
    | true =>
      exact ⟨fun d => by simp [async_update_data, hrun, hsw],
        Or.inl (by simp [async_update_data, hrun, hsw])⟩
  | authException msg =>
    rcases htr : try_renew_token api with e2 | en2
    · cases e2 with
      | none =>
        exact ⟨fun d => by simp [async_update_data, hrun, htr],
          Or.inr (by simp [async_update_data, hrun, htr])⟩
      | some er =>
        exact ⟨fun d => by simp [async_update_data, hrun, htr],
          Or.inr (by simp [async_update_data, hrun, htr])⟩
    · exact ⟨fun d => by simp [async_update_data, hrun, htr],
        Or.inr (by simp [async_update_data, hrun, htr])⟩

/-- When the try block succeeds, the produced snapshot is exactly the record
built at coordinator.py lines 94-99: both windows fetched successfully, the
account data fetched, the two series concatenated in window order; and the
trace is the concatenation of the four steps. -/
lemma runTryBlock_ok_shape (api : Api) (today : Int) (d : FrankEnergieData)
    (h : (runTryBlock api today).1 = Except.ok d) :
    ∃ p1 p2,
      (fetch_prices_with_fallback api today (today + 1)).1 = Except.ok p1
      ∧ (fetch_prices_with_fallback api (today + 1) (today + 2)).1 = Except.ok p2
      ∧ (fetch_month_summary api).1 = Except.ok d.month_summary
      ∧ (fetch_invoices api).1 = Except.ok d.invoices
      ∧ d.electricity = p1.electricity + p2.electricity
      ∧ d.gas = p1.gas + p2.gas
      ∧ (runTryBlock api today).2 =
          (fetch_prices_with_fallback api today (today + 1)).2
          ++ (fetch_prices_with_fallback api (today + 1) (today + 2)).2
          ++ (fetch_month_summary api).2 ++ (fetch_invoices api).2 := by
  rcases h1 : fetch_prices_with_fallback api today (today + 1) with ⟨r1, t1⟩
  cases r1 with
  | error e =>
    rw [show runTryBlock api today = (Except.error e, t1) from by
      simp [runTryBlock, tbind, h1]] at h
    simp at h
  | ok p1 =>
    rcases h2 : fetch_prices_with_fallback api (today + 1) (today + 2) with ⟨r2, t2⟩
    cases r2 with
    | error e =>
      rw [show runTryBlock api today = (Except.error e, t1 ++ t2) from by
        simp [runTryBlock, tbind, h1, h2]] at h
      simp at h
    | ok p2 =>
      rcases h3 : fetch_month_summary api with ⟨r3, t3⟩
      cases r3 with
      | error e =>
        rw [show runTryBlock api today = (Except.error e, t1 ++ (t2 ++ t3)) from by
          simp [runTryBlock, tbind, h1, h2, h3]] at h
        simp at h
      | ok m =>
        rcases h4 : fetch_invoices api with ⟨r4, t4⟩
        cases r4 with
        | error e =>
          rw [show runTryBlock api today = (Except.error e, t1 ++ (t2 ++ (t3 ++ t4))) from by
            simp [runTryBlock, tbind, h1, h2, h3, h4]] at h
          simp at h
        | ok i =>
          rw [show runTryBlock api today =
              (Except.ok { electricity := p1.electricity + p2.electricity,
                           gas := p1.gas + p2.gas, month_summary := m, invoices := i },
               t1 ++ (t2 ++ (t3 ++ t4))) from by
            simp [runTryBlock, tbind, h1, h2, h3, h4]] at h ⊢
          simp at h
          subst h
          exact ⟨p1, p2, rfl, rfl, rfl, rfl, rfl, rfl, by simp⟩

/-- Claim C1, refuted on the code (evidence for the code bug): with a cached
snapshot holding a future-dated price for both commodities and the price
fetch failing with a generic request exception, the cycle raises
`UpdateFailed` instead of returning the cached snapshot. The stale-data
fallback of the except clause at coordinator.py line 72 is unreachable for
request exceptions, because the `UpdateFailed` raised at line 86 occurs
inside a sibling except clause of the same try statement, which Python does
not re-dispatch to the handler at line 72. -/
theorem c1_generic_failure_bypasses_stale_fallback :
    (prevGood.electricity.get_future_prices 0 ≠ []
      ∧ prevGood.gas.get_future_prices 0 ≠ [])
    ∧ (async_update_data apiReqFail 0 prevGood 0 entrySample).1
        = CycleOutcome.updateFailed "connection error"
    ∧ (async_update_data apiReqFail 0 prevGood 0 entrySample).1
        ≠ CycleOutcome.ok prevGood :=
  ⟨by decide, by decide, by decide⟩

/-- Claim C2: when the fetch raises an auth exception, the coordinator
performs exactly one token-renewal call and the cycle never returns a
snapshot, whatever the renewal outcome (refresh failure on success of the
renewal, auth-failure signal on its failure, both failed cycles). -/
theorem c2_auth_exception_renews_once_and_fails
    (api : Api) (today : Int) (prev : FrankEnergieData) (now : Int)
    (entry : EntryData) (msg : String)
    (h : (runTryBlock api today).1 = Except.error (FetchError.authException msg)) :
    (async_update_data api today prev now entry).2.2.count ApiCall.renewTokenCall = 1
    ∧ ∀ d, (async_update_data api today prev now entry).1 ≠ CycleOutcome.ok d := by
  rcases hrt : runTryBlock api today with ⟨r, t⟩
  have hr : r = Except.error (FetchError.authException msg) := by rw [hrt] at h; exact h
  subst hr
  have hnr : ApiCall.renewTokenCall ∉ t := by
    have hn := runTryBlock_no_renew api today
    rw [hrt] at hn
    exact hn
  have hcount : (t ++ [ApiCall.renewTokenCall]).count ApiCall.renewTokenCall = 1 := by
    simp [List.count_append, List.count_eq_zero.mpr hnr]
  rcases htr : try_renew_token api with e | entry2
  · cases e with
    | none =>
      refine ⟨?_, ?_⟩
      · simp [async_update_data, hrt, htr, hcount]
      · intro d; simp [async_update_data, hrt, htr]
    | some er =>
      refine ⟨?_, ?_⟩
      · simp [async_update_data, hrt, htr, hcount]
      · intro d; simp [async_update_data, hrt, htr]
  · refine ⟨?_, ?_⟩
    · simp [async_update_data, hrt, htr, hcount]
    · intro d; simp [async_update_data, hrt, htr]

/-- Witness for C2 at a concrete client whose user-price fetch raises an
auth exception and whose renewal succeeds. -/
theorem c2_auth_exception_renews_once_and_fails_witness :
    ((runTryBlock apiAuthExpired 0).1
      = Except.error (FetchError.authException "token expired"))
    ∧ ((async_update_data apiAuthExpired 0 prevGood 0 entrySample).2.2.count
          ApiCall.renewTokenCall = 1
       ∧ ∀ d, (async_update_data apiAuthExpired 0 prevGood 0 entrySample).1
          ≠ CycleOutcome.ok d) :=
  ⟨rfl, c2_auth_exception_renews_once_and_fails apiAuthExpired 0 prevGood 0
    entrySample "token expired" rfl⟩

/-- Claim C3: a request exception whose message carries the user-error tag
always escalates to the auth-failure signal and never returns any snapshot,
whatever the cached data. -/
theorem c3_user_error_escalates_to_reauth
    (api : Api) (today : Int) (prev : FrankEnergieData) (now : Int)
    (entry : EntryData) (msg : String)
    (h : (runTryBlock api today).1 = Except.error (FetchError.requestException msg))
    (hu : startswith msg "user-error:" = true) :
    (async_update_data api today prev now entry).1 = CycleOutcome.configEntryAuthFailed
    ∧ ∀ d, (async_update_data api today prev now entry).1 ≠ CycleOutcome.ok d := by
  rcases hrt : runTryBlock api today with ⟨r, t⟩
  have hr : r = Except.error (FetchError.requestException msg) := by rw [hrt] at h; exact h
  subst hr
  refine ⟨?_, ?_⟩
  · simp [async_update_data, hrt, hu]
  · intro d; simp [async_update_data, hrt, hu]

/-- Witness for C3 at a concrete client raising a user-error-tagged request
exception, with a cached snapshot that has future data for both
commodities. -/
theorem c3_user_error_escalates_to_reauth_witness :
    ((runTryBlock apiUserErr 0).1
      = Except.error (FetchError.requestException "user-error: auth-error"))
    ∧ (startswith "user-error: auth-error" "user-error:" = true)
    ∧ ((async_update_data apiUserErr 0 prevGood 0 entrySample).1
          = CycleOutcome.configEntryAuthFailed
       ∧ ∀ d, (async_update_data apiUserErr 0 prevGood 0 entrySample).1
          ≠ CycleOutcome.ok d) :=
  ⟨rfl, by decide,
    c3_user_error_escalates_to_reauth apiUserErr 0 prevGood 0 entrySample
      "user-error: auth-error" rfl (by decide)⟩

/-- Claim C4: a generic (untagged) request exception propagates as a refresh
failure when the cached snapshot lacks future data for at least one
commodity. -/
theorem c4_request_failure_propagates_without_future_data
    (api : Api) (today : Int) (prev : FrankEnergieData) (now : Int)
    (entry : EntryData) (msg : String)
    (h : (runTryBlock api today).1 = Except.error (FetchError.requestException msg))
    (hg : startswith msg "user-error:" = false)
    (_hnf : prev.electricity.get_future_prices now = []
      ∨ prev.gas.get_future_prices now = []) :
    (async_update_data api today prev now entry).1 = CycleOutcome.updateFailed msg := by
  rcases hrt : runTryBlock api today with ⟨r, t⟩
  have hr : r = Except.error (FetchError.requestException msg) := by rw [hrt] at h; exact h
  subst hr
  simp [async_update_data, hrt, hg]

/-- Witness for C4 at a concrete client whose price fetch raises a generic
request exception, with a cached snapshot whose electricity series has no
future entry. -/
theorem c4_request_failure_propagates_without_future_data_witness :
    ((runTryBlock apiReqFail 0).1
      = Except.error (FetchError.requestException "connection error"))
    ∧ (startswith "connection error" "user-error:" = false)
    ∧ (prevStale.electricity.get_future_prices 0 = []
        ∨ prevStale.gas.get_future_prices 0 = [])
    ∧ (async_update_data apiReqFail 0 prevStale 0 entrySample).1
        = CycleOutcome.updateFailed "connection error" :=
  ⟨rfl, by decide, by decide,
    c4_request_failure_propagates_without_future_data apiReqFail 0 prevStale 0
      entrySample "connection error" rfl (by decide) (by decide)⟩

/-- Claim C5: a cycle that returns a snapshot returns either the cached
snapshot exactly as it was, or a complete new snapshot whose four fields all
come from the fetches of this cycle (series concatenated over the two
windows, account data as fetched); there is no partial overwrite. -/
theorem c5_snapshot_never_partially_overwritten
    (api : Api) (today : Int) (prev : FrankEnergieData) (now : Int)
    (entry : EntryData) (d : FrankEnergieData)
    (h : (async_update_data api today prev now entry).1 = CycleOutcome.ok d) :
    d = prev ∨
      ∃ p1 p2,
        (fetch_prices_with_fallback api today (today + 1)).1 = Except.ok p1
        ∧ (fetch_prices_with_fallback api (today + 1) (today + 2)).1 = Except.ok p2
        ∧ (fetch_month_summary api).1 = Except.ok d.month_summary
        ∧ (fetch_invoices api).1 = Except.ok d.invoices
        ∧ d.electricity = p1.electricity + p2.electricity
        ∧ d.gas = p1.gas + p2.gas := by
  rcases hrt : runTryBlock api today with ⟨r, t⟩
  cases r with
  | ok d2 =>
    have hd : d2 = d := by simpa [async_update_data, hrt] using h
    subst hd
    right
    obtain ⟨p1, p2, ha, hb, hc, hd, he, hf, -⟩ :=
      runTryBlock_ok_shape api today d2 (by rw [hrt])
    exact ⟨p1, p2, ha, hb, hc, hd, he, hf⟩
  | error e =>
    cases e with
    | updateFailed msg =>
      by_cases hf : prev.electricity.get_future_prices now ≠ []
          ∧ prev.gas.get_future_prices now ≠ []
      · left
        have : prev = d := by simpa [async_update_data, hrt, hf] using h
        exact this.symm
      · simp [async_update_data, hrt, hf] at h
    | requestException msg =>
      cases hsw : startswith msg "user-error:" with
      | false => simp [async_update_data, hrt, hsw] at h
      | true => simp [async_update_data, hrt, hsw] at h
    | authException msg =>
      rcases htr : try_renew_token api with e2 | entry2
      · cases e2 with
        | none => simp [async_update_data, hrt, htr] at h
        | some er => simp [async_update_data, hrt, htr] at h
      · simp [async_update_data, hrt, htr] at h

/-- Witness for C5 at a fully successful authenticated cycle. -/
theorem c5_snapshot_never_partially_overwritten_witness :
    ((async_update_data apiOkAuth 0 prevGood 0 entrySample).1
      = CycleOutcome.ok dNewSample)
    ∧ (dNewSample = prevGood ∨
        ∃ p1 p2,
          (fetch_prices_with_fallback apiOkAuth 0 (0 + 1)).1 = Except.ok p1
          ∧ (fetch_prices_with_fallback apiOkAuth (0 + 1) (0 + 2)).1 = Except.ok p2
          ∧ (fetch_month_summary apiOkAuth).1 = Except.ok dNewSample.month_summary
          ∧ (fetch_invoices apiOkAuth).1 = Except.ok dNewSample.invoices
          ∧ dNewSample.electricity = p1.electricity + p2.electricity
          ∧ dNewSample.gas = p1.gas + p2.gas) :=
  ⟨rfl, c5_snapshot_never_partially_overwritten apiOkAuth 0 prevGood 0 entrySample
    dNewSample rfl⟩

/-- Claim C6: in the authenticated fallback, substitution is per-commodity
independent: an empty user electricity series is replaced by the public
electricity series while the user gas series is kept, and symmetrically. -/
theorem c6_fallback_substitution_per_commodity
    (api : Api) (s e : Int) (up pp : MarketPrices)
    (ha : api.is_authenticated = true)
    (hu : api.user_prices s = Except.ok up)
    (hp : api.prices s e = Except.ok pp) :
    (up.electricity.all = [] → up.gas.all ≠ [] →
      (fetch_prices_with_fallback api s e).1
        = Except.ok { electricity := pp.electricity, gas := up.gas })
    ∧ (up.gas.all = [] → up.electricity.all ≠ [] →
      (fetch_prices_with_fallback api s e).1
        = Except.ok { electricity := up.electricity, gas := pp.gas }) := by
  constructor
  · intro hel hgn
    have hb : ¬(0 < up.gas.all.length ∧ 0 < up.electricity.all.length) := by
      simp [hel]
    simp [fetch_prices_with_fallback, ha, hu, hp, hb, hel,
      List.length_eq_zero, hgn]
  · intro hgl hen
    have hb : ¬(0 < up.gas.all.length ∧ 0 < up.electricity.all.length) := by
      simp [hgl]
    simp [fetch_prices_with_fallback, ha, hu, hp, hb, hgl,
      List.length_eq_zero, hen]

/-- Witness for C6 at a concrete client whose user electricity series is
empty while the user gas series is not. -/
theorem c6_fallback_substitution_per_commodity_witness :
    (apiEmptyElec.is_authenticated = true)
    ∧ (apiEmptyElec.user_prices 0 = Except.ok upEmptyElec)
    ∧ (apiEmptyElec.prices 0 1 = Except.ok (mpPub 0))
    ∧ ((upEmptyElec.electricity.all = [] → upEmptyElec.gas.all ≠ [] →
        (fetch_prices_with_fallback apiEmptyElec 0 1).1
          = Except.ok { electricity := (mpPub 0).electricity, gas := upEmptyElec.gas })
      ∧ (upEmptyElec.gas.all = [] → upEmptyElec.electricity.all ≠ [] →
        (fetch_prices_with_fallback apiEmptyElec 0 1).1
          = Except.ok { electricity := upEmptyElec.electricity, gas := (mpPub 0).gas })) :=
  ⟨rfl, rfl, rfl,
    c6_fallback_substitution_per_commodity apiEmptyElec 0 1 upEmptyElec (mpPub 0)
      rfl rfl rfl⟩

/-- Claim C7: in an unauthenticated cycle (with the client raising only its
own exception classes), any returned snapshot has absent month summary and
invoices, and the user-price operation is never called. -/
theorem c7_unauthenticated_cycle_public_only
    (api : Api) (today : Int) (prev : FrankEnergieData) (now : Int)
    (entry : EntryData)
    (ha : api.is_authenticated = false)
    (hc : api.clientErrors) :
    (∀ d, (async_update_data api today prev now entry).1 = CycleOutcome.ok d →
        d.month_summary = none ∧ d.invoices = none)
    ∧ (∀ s, ApiCall.userPricesCall s ∉ (async_update_data api today prev now entry).2.2) := by
  have h1 := fpwf_unauth api today (today + 1) ha
  have h2 := fpwf_unauth api (today + 1) (today + 2) ha
  cases hp1 : api.prices today (today + 1) with
  | error e1 =>
    have hrun : runTryBlock api today
        = (Except.error e1, [ApiCall.pricesCall today (today + 1)]) := by
      simp [runTryBlock, tbind, h1, hp1]
    have hne : ∀ msg, e1 ≠ FetchError.updateFailed msg := fun msg hm =>
      hc.1 today (today + 1) msg (by rw [hp1, hm])
    obtain ⟨hok, htr⟩ := error_cycle_not_ok api today prev now entry e1 _ hrun hne
    refine ⟨fun d hd => absurd hd (hok d), fun s => ?_⟩
    rcases htr with htr | htr <;> rw [htr] <;> simp
  | ok p1 =>
    cases hp2 : api.prices (today + 1) (today + 2) with
    | error e2 =>
      have hrun : runTryBlock api today = (Except.error e2,
          [ApiCall.pricesCall today (today + 1),
           ApiCall.pricesCall (today + 1) (today + 2)]) := by
        simp [runTryBlock, tbind, h1, h2, hp1, hp2]
      have hne : ∀ msg, e2 ≠ FetchError.updateFailed msg := fun msg hm =>
        hc.1 (today + 1) (today + 2) msg (by rw [hp2, hm])
      obtain ⟨hok, htr⟩ := error_cycle_not_ok api today prev now entry e2 _ hrun hne
      refine ⟨fun d hd => absurd hd (hok d), fun s => ?_⟩
      rcases htr with htr | htr <;> rw [htr] <;> simp
    | ok p2 =>
      have hrun : runTryBlock api today = (Except.ok
          { electricity := p1.electricity + p2.electricity,
            gas := p1.gas + p2.gas, month_summary := none, invoices := none },
          [ApiCall.pricesCall today (today + 1),
           ApiCall.pricesCall (today + 1) (today + 2)]) := by
        simp [runTryBlock, tbind, h1, h2, hp1, hp2, fms_unauth api ha, fi_unauth api ha]
      refine ⟨fun d hd => ?_, fun s => ?_⟩
      · simp [async_update_data, hrun] at hd
        rw [← hd]
        exact ⟨rfl, rfl⟩
      · simp [async_update_data, hrun]

/-- Witness for C7 at a concrete unauthenticated client whose calls all
succeed. -/
theorem c7_unauthenticated_cycle_public_only_witness :
    (apiOkPublic.is_authenticated = false)
    ∧ Api.clientErrors apiOkPublic
    ∧ ((∀ d, (async_update_data apiOkPublic 0 prevGood 0 entrySample).1
            = CycleOutcome.ok d →
          d.month_summary = none ∧ d.invoices = none)
       ∧ (∀ s, ApiCall.userPricesCall s
            ∉ (async_update_data apiOkPublic 0 prevGood 0 entrySample).2.2)) :=
  ⟨rfl,
    ⟨fun s e msg => by simp [apiOkPublic, apiOkAuth],
     fun s msg => by simp [apiOkPublic, apiOkAuth],
     fun msg => by simp [apiOkPublic, apiOkAuth],
     fun msg => by simp [apiOkPublic, apiOkAuth]⟩,
    c7_unauthenticated_cycle_public_only apiOkPublic 0 prevGood 0 entrySample rfl
      ⟨fun s e msg => by simp [apiOkPublic, apiOkAuth],
       fun s msg => by simp [apiOkPublic, apiOkAuth],
       fun msg => by simp [apiOkPublic, apiOkAuth],
       fun msg => by simp [apiOkPublic, apiOkAuth]⟩⟩

/-- Claim C8: a successful try block fetches prices exactly for the windows
[today, today+1) and [today+1, today+2), in that order, and the resulting
series are the concatenations of the two windows in order. -/
theorem c8_two_windows_concatenated
    (api : Api) (today : Int) (d : FrankEnergieData)
    (h : (runTryBlock api today).1 = Except.ok d) :
    ∃ p1 p2,
      (fetch_prices_with_fallback api today (today + 1)).1 = Except.ok p1
      ∧ (fetch_prices_with_fallback api (today + 1) (today + 2)).1 = Except.ok p2
      ∧ d.electricity.all = p1.electricity.all ++ p2.electricity.all
      ∧ d.gas.all = p1.gas.all ++ p2.gas.all
      ∧ (runTryBlock api today).2 =
          (fetch_prices_with_fallback api today (today + 1)).2
          ++ (fetch_prices_with_fallback api (today + 1) (today + 2)).2
          ++ (fetch_month_summary api).2 ++ (fetch_invoices api).2
      ∧ (fetch_prices_with_fallback api today (today + 1)).2 ≠ []
      ∧ (fetch_prices_with_fallback api (today + 1) (today + 2)).2 ≠ []
      ∧ (∀ c ∈ (fetch_prices_with_fallback api today (today + 1)).2,
          c = ApiCall.userPricesCall today ∨ c = ApiCall.pricesCall today (today + 1))
      ∧ (∀ c ∈ (fetch_prices_with_fallback api (today + 1) (today + 2)).2,
          c = ApiCall.userPricesCall (today + 1)
          ∨ c = ApiCall.pricesCall (today + 1) (today + 2)) := by
  obtain ⟨p1, p2, ha, hb, hc, hd2, he, hf, ht⟩ := runTryBlock_ok_shape api today d h
  refine ⟨p1, p2, ha, hb, ?_, ?_, ht,
    fallback_trace_nonempty _ _ _, fallback_trace_nonempty _ _ _,
    fun c hcm => fallback_trace_mem _ _ _ _ hcm,
    fun c hcm => fallback_trace_mem _ _ _ _ hcm⟩
  · rw [he]; rfl
  · rw [hf]; rfl

/-- Witness for C8 at a fully successful authenticated cycle on day 0. -/
theorem c8_two_windows_concatenated_witness :
    ((runTryBlock apiOkAuth 0).1 = Except.ok dNewSample)
    ∧ (∃ p1 p2,
      (fetch_prices_with_fallback apiOkAuth 0 (0 + 1)).1 = Except.ok p1
      ∧ (fetch_prices_with_fallback apiOkAuth (0 + 1) (0 + 2)).1 = Except.ok p2
      ∧ dNewSample.electricity.all = p1.electricity.all ++ p2.electricity.all
      ∧ dNewSample.gas.all = p1.gas.all ++ p2.gas.all
      ∧ (runTryBlock apiOkAuth 0).2 =
          (fetch_prices_with_fallback apiOkAuth 0 (0 + 1)).2
          ++ (fetch_prices_with_fallback apiOkAuth (0 + 1) (0 + 2)).2
          ++ (fetch_month_summary apiOkAuth).2 ++ (fetch_invoices apiOkAuth).2
      ∧ (fetch_prices_with_fallback apiOkAuth 0 (0 + 1)).2 ≠ []
      ∧ (fetch_prices_with_fallback apiOkAuth (0 + 1) (0 + 2)).2 ≠ []
      ∧ (∀ c ∈ (fetch_prices_with_fallback apiOkAuth 0 (0 + 1)).2,
          c = ApiCall.userPricesCall 0 ∨ c = ApiCall.pricesCall 0 (0 + 1))
      ∧ (∀ c ∈ (fetch_prices_with_fallback apiOkAuth (0 + 1) (0 + 2)).2,
          c = ApiCall.userPricesCall (0 + 1)
          ∨ c = ApiCall.pricesCall (0 + 1) (0 + 2))) :=
  ⟨rfl, c8_two_windows_concatenated apiOkAuth 0 dNewSample rfl⟩

/-- Claim C9: when the user prices of a window are non-empty for both
commodities, the fallback returns them as-is, with the user-price call as
its only call and no public-price fetch. -/
theorem c9_user_prices_returned_as_is
    (api : Api) (s e : Int) (up : MarketPrices)
    (ha : api.is_authenticated = true)
    (hu : api.user_prices s = Except.ok up)
    (hg : up.gas.all ≠ []) (hel : up.electricity.all ≠ []) :
    fetch_prices_with_fallback api s e = (Except.ok up, [ApiCall.userPricesCall s])
    ∧ ∀ s2 e2, ApiCall.pricesCall s2 e2 ∉ (fetch_prices_with_fallback api s e).2 := by
  have hb : 0 < up.gas.all.length ∧ 0 < up.electricity.all.length :=
    ⟨List.length_pos.mpr hg, List.length_pos.mpr hel⟩
  have heq : fetch_prices_with_fallback api s e
      = (Except.ok up, [ApiCall.userPricesCall s]) := by
    simp [fetch_prices_with_fallback, ha, hu, hb]
  exact ⟨heq, fun s2 e2 => by rw [heq]; simp⟩

/-- Witness for C9 at a concrete client with non-empty user prices. -/
theorem c9_user_prices_returned_as_is_witness :
    (apiOkAuth.is_authenticated = true)
    ∧ (apiOkAuth.user_prices 0 = Except.ok (mpWin 0))
    ∧ ((mpWin 0).gas.all ≠ []) ∧ ((mpWin 0).electricity.all ≠ [])
    ∧ (fetch_prices_with_fallback apiOkAuth 0 1
        = (Except.ok (mpWin 0), [ApiCall.userPricesCall 0])
       ∧ ∀ s2 e2, ApiCall.pricesCall s2 e2
          ∉ (fetch_prices_with_fallback apiOkAuth 0 1).2) :=
  ⟨rfl, rfl, by decide, by decide,
    c9_user_prices_returned_as_is apiOkAuth 0 1 (mpWin 0) rfl rfl
      (by decide) (by decide)⟩

/-- Claim C10: for a request exception raised in the try block, escalation
to the auth-failure signal happens exactly when the message starts with the
literal tag; any other message yields a refresh failure carrying that
message. -/
theorem c10_user_error_tag_decided_by_message_start
    (api : Api) (today : Int) (prev : FrankEnergieData) (now : Int)
    (entry : EntryData) (msg : String)
    (h : (runTryBlock api today).1 = Except.error (FetchError.requestException msg)) :
    ((async_update_data api today prev now entry).1 = CycleOutcome.configEntryAuthFailed
      ↔ startswith msg "user-error:" = true)
    ∧ (startswith msg "user-error:" = false →
        (async_update_data api today prev now entry).1 = CycleOutcome.updateFailed msg) := by
  rcases hrt : runTryBlock api today with ⟨r, t⟩
  have hr : r = Except.error (FetchError.requestException msg) := by rw [hrt] at h; exact h
  subst hr
  cases hsw : startswith msg "user-error:" with
  | true => refine ⟨?_, ?_⟩ <;> simp [async_update_data, hrt, hsw]
  | false => refine ⟨?_, ?_⟩ <;> simp [async_update_data, hrt, hsw]

/-- Witness for C10 at a concrete client raising an untagged request
exception. -/
theorem c10_user_error_tag_decided_by_message_start_witness :
    ((runTryBlock apiReqFail 0).1
      = Except.error (FetchError.requestException "connection error"))
    ∧ (((async_update_data apiReqFail 0 prevGood 0 entrySample).1
          = CycleOutcome.configEntryAuthFailed
        ↔ startswith "connection error" "user-error:" = true)
       ∧ (startswith "connection error" "user-error:" = false →
          (async_update_data apiReqFail 0 prevGood 0 entrySample).1
            = CycleOutcome.updateFailed "connection error")) :=
  ⟨rfl, c10_user_error_tag_decided_by_message_start apiReqFail 0 prevGood 0
    entrySample "connection error" rfl⟩

end FrankEnergie
